import Mathlib

/-!
Verification of the map-scan service backend.

Shallow embedding of the JavaScript sources:
* `server.js` — TTL cache, battery-id validation, the `/api/battery/:batteryId`
  and `/api/stations` handlers, startup health check, shutdown handlers;
* `locations.js` — `locationManager.isOpen`;
* `scan_service.js` — `parseDurationToSeconds` / `formatSecondsToDuration`.

JavaScript strings are embedded as Lean `String`/`List Char`, JS numbers
occurring here are integers and are embedded as `Int`/`Nat`, possibly-absent
(`undefined`) values as `Option`, thrown exceptions as an explicit
constructor, and the mutable `Map` cache as an association list threaded
through the functions.
-/

/-! ## JS runtime helpers -/

/-- Whitespace characters recognised by JS `trim` / `parseInt` (the ones that
matter for this development). -/
def isJsWhitespace (c : Char) : Bool :=
  c = ' ' || c = '\t' || c = '\n' || c = '\r'

/-- ASCII decimal digit test. -/
def isAsciiDigit (c : Char) : Bool :=
  48 ≤ c.toNat && c.toNat ≤ 57

/-- Numeric value of an ASCII digit character. -/
def digitVal (c : Char) : Nat := c.toNat - 48

/-- JS `String.prototype.trim`. -/
def jsTrim (s : String) : String :=
  String.mk (((s.toList.dropWhile isJsWhitespace).reverse.dropWhile isJsWhitespace).reverse)

/-- JS `x || d` for a possibly-absent string `x`: `undefined` and `""` are falsy. -/
def jsOrStr : Option String → String → String
  | some s, d => if s = "" then d else s
  | none, d => d

/-- JS truthiness of a possibly-absent string (`undefined` and `""` are falsy). -/
def jsTruthyStr : Option String → Bool
  | some s => s != ""
  | none => false

/-! ## Cache (`server.js` lines 36–47)

```js
const apiCache = new Map();
const CACHE_TTL = 10000; // 10 seconds

const getCachedData = (key) => {
    const cached = apiCache.get(key);
    if (cached && Date.now() - cached.timestamp < CACHE_TTL) {
        return cached.data;
    }
    apiCache.delete(key);
    return null;
};
```
`set` appears at the call sites as `apiCache.set(key, {data, timestamp: Date.now()})`.
-/

/-- A cache entry `{data, timestamp}`. -/
structure CacheEntry (α : Type) where
  data : α
  timestamp : Int
deriving DecidableEq, Repr

/-- The `apiCache` map, as an association list with unique keys. -/
def Cache (α : Type) : Type := List (String × CacheEntry α)

instance (α : Type) [DecidableEq α] : DecidableEq (Cache α) :=
  inferInstanceAs (DecidableEq (List (String × CacheEntry α)))

/-- `Map.get`. -/
def alookup {α : Type} : List (String × α) → String → Option α
  | [], _ => none
  | (k, v) :: rest, key => if k = key then some v else alookup rest key

/-- `Map.delete` (a no-op when the key is absent). -/
def eraseC {α : Type} : Cache α → String → Cache α
  | [], _ => []
  | (k, v) :: rest, key =>
    if k = key then eraseC rest key else (k, v) :: eraseC rest key

/-- `apiCache.set(key, {data, timestamp: now})`. -/
def cacheSet {α : Type} (cache : Cache α) (key : String) (d : α) (now : Int) : Cache α :=
  (key, ⟨d, now⟩) :: eraseC cache key

/-- `CACHE_TTL = 10000` milliseconds (10 seconds). -/
def CACHE_TTL : Int := 10000

/-- `getCachedData(key)` at time `now`; returns the looked-up payload (or
`none`) together with the cache as left behind by the call. -/
def getCachedData {α : Type} (cache : Cache α) (key : String) (now : Int) :
    Option α × Cache α :=
  match alookup cache key with
  | some e => if now - e.timestamp < CACHE_TTL then (some e.data, cache)
              else (none, eraseC cache key)
  | none => (none, eraseC cache key)

/-! ## Cache lemmas -/

theorem alookup_eraseC {α : Type} (cache : Cache α) (key : String) :
    alookup (eraseC cache key) key = none := by
  induction cache with
  | nil => rfl
  | cons kv rest ih =>
    by_cases h : kv.1 = key
    · simpa [eraseC, h] using ih
    · simpa [eraseC, h, alookup] using ih

/-- C1 helper: looking up in an erased-then-set cache. -/
theorem alookup_cacheSet {α : Type} (cache : Cache α) (key : String) (d : α) (now : Int) :
    alookup (cacheSet cache key d now) key = some ⟨d, now⟩ := by
  simp [cacheSet, alookup]

/-- **C1.** For every cache key: `getCachedData key` returns the stored payload
when an entry exists and `now` minus its timestamp is strictly below the
10-second TTL; otherwise it returns `null` and removes the (stale or absent)
entry; `set` stores the payload with the current timestamp. -/
theorem cache_ttl_spec {α : Type} (cache : Cache α) (key : String) (now : Int) :
    (∀ e, alookup cache key = some e → now - e.timestamp < CACHE_TTL →
      getCachedData cache key now = (some e.data, cache))
    ∧ (∀ e, alookup cache key = some e → ¬ now - e.timestamp < CACHE_TTL →
      getCachedData cache key now = (none, eraseC cache key))
    ∧ (alookup cache key = none →
      getCachedData cache key now = (none, eraseC cache key))
    ∧ (∀ c : Cache α, alookup (eraseC c key) key = none)
    ∧ (∀ d : α, alookup (cacheSet cache key d now) key = some ⟨d, now⟩) := by
  refine ⟨?_, ?_, ?_, ?_, ?_⟩
  · intro e he hf
    simp [getCachedData, he, hf]
  · intro e he hs
    simp [getCachedData, he, if_neg hs]
  · intro h
    simp [getCachedData, h]
  · intro c
    exact alookup_eraseC c key
  · intro d
    exact alookup_cacheSet cache key d now

/-- Witness for C1 at a concrete cache: an entry stored at time 100 is fresh
at time 5000, stale at time 20000, and `set` records the write time. -/
theorem cache_ttl_spec_witness :
    getCachedData [("k", (⟨7, 100⟩ : CacheEntry Nat))] "k" 5000 =
      (some 7, [("k", ⟨7, 100⟩)])
    ∧ getCachedData [("k", (⟨7, 100⟩ : CacheEntry Nat))] "k" 20000 =
      (none, eraseC [("k", ⟨7, 100⟩)] "k")
    ∧ alookup (cacheSet ([] : Cache Nat) "k" 7 5000) "k" = some ⟨7, 5000⟩ := by
  refine ⟨?_, ?_, ?_⟩
  · exact (cache_ttl_spec [("k", ⟨7, 100⟩)] "k" 5000).1 ⟨7, 100⟩ (by decide) (by decide)
  · exact (cache_ttl_spec [("k", ⟨7, 100⟩)] "k" 20000).2.1 ⟨7, 100⟩ (by decide) (by decide)
  · exact (cache_ttl_spec ([] : Cache Nat) "k" 5000).2.2.2.2 7

/-! ## HTTP responses -/

/-- A JSON response body: either `{error: msg}` or a payload. -/
inductive RespBody (α : Type) where
  | err (msg : String)
  | payload (d : α)
deriving DecidableEq, Repr

/-- An HTTP response: status code plus JSON body. -/
structure Response (α : Type) where
  status : Nat
  body : RespBody α
deriving DecidableEq, Repr

/-! ## Battery-id validation (`server.js` lines 99–109)

```js
const validateBatteryId = (req, res, next) => {
    const { batteryId } = req.params;
    if (!batteryId || !(batteryId in batteryIdMap)) {
        return res.status(400).json({ error: "Invalid battery ID" });
    }
    const realBatteryId = batteryIdMap[batteryId];
    if (!realBatteryId || realBatteryId.trim() === '') {
        return res.status(400).json({ error: "Battery ID not configured" });
    }
    next();
};
```
The static `batteryIdMap` (a build-time artifact, `public/batteryIdMap.js`,
not part of the sources) is a parameter `idMap : String → Option String`.
-/

/-- `validateBatteryId`: `some resp` means the middleware answered `resp`
itself; `none` means it called `next()`. -/
def validateBatteryId {α : Type} (idMap : String → Option String) (batteryId : String) :
    Option (Response α) :=
  if batteryId = "" then some ⟨400, .err "Invalid battery ID"⟩
  else
    match idMap batteryId with
    | none => some ⟨400, .err "Invalid battery ID"⟩
    | some realBatteryId =>
      if realBatteryId = "" ∨ jsTrim realBatteryId = "" then
        some ⟨400, .err "Battery ID not configured"⟩
      else none

/-! ## Supplier adapter (battery lookup result shape)

`supplierApi.findBatteryById` returns `{success, data, error}`; a thrown
exception is the third constructor. -/

/-- Outcome of `supplierApi.findBatteryById(realBatteryId)`. -/
inductive FindResult (α : Type) where
  | success (d : α)
  | failure (e : Option String)
  | throws
deriving DecidableEq, Repr

/-! ## `GET /api/battery/:batteryId` (`server.js` lines 281–312)

```js
app.get('/api/battery/:batteryId', validateBatteryId, async (req, res) => {
    const customBatteryId = req.params.batteryId;
    const realBatteryId = batteryIdMap[customBatteryId];
    const cacheKey = `battery_${realBatteryId}`;
    const cachedData = getCachedData(cacheKey);
    if (cachedData) { return res.json(cachedData); }
    try {
        const result = await supplierApi.findBatteryById(realBatteryId);
        if (result.success) {
            apiCache.set(cacheKey, { data: result.data, timestamp: Date.now() });
            res.json(result.data);
        } else {
            res.status(404).json({ error: result.error || "Battery not found" });
        }
    } catch (error) {
        res.status(500).json({ error: "Internal server error" });
    }
});
```
-/

/-- The battery endpoint. Returns the response, the cache after the request,
and whether the supplier adapter (a network call) was invoked. -/
def batteryRoute {α : Type} (idMap : String → Option String) (batteryId : String)
    (now : Int) (cache : Cache α) (find : String → FindResult α) :
    Response α × Cache α × Bool :=
  match validateBatteryId idMap batteryId with
  | some resp => (resp, cache, false)
  | none =>
    let realBatteryId := (idMap batteryId).getD ""
    let cacheKey := "battery_" ++ realBatteryId
    match getCachedData cache cacheKey now with
    | (some d, c1) => (⟨200, .payload d⟩, c1, false)
    | (none, c1) =>
      match find realBatteryId with
      | .success d => (⟨200, .payload d⟩, cacheSet c1 cacheKey d now, true)
      | .failure e => (⟨404, .err (e.getD "Battery not found")⟩, c1, true)
      | .throws => (⟨500, .err "Internal server error"⟩, c1, true)

/-- **C2.** A `GET /api/battery/:batteryId` whose id is absent from the static
battery-id map is answered with status 400 and a JSON error body, and no
network call to any supplier is made. -/
theorem invalid_battery_id_rejected {α : Type} (idMap : String → Option String)
    (batteryId : String) (now : Int) (cache : Cache α) (find : String → FindResult α)
    (habsent : idMap batteryId = none) :
    batteryRoute idMap batteryId now cache find =
      (⟨400, .err "Invalid battery ID"⟩, cache, false) := by
  by_cases hempty : batteryId = ""
  · simp [batteryRoute, validateBatteryId, hempty]
  · simp [batteryRoute, validateBatteryId, hempty, habsent]

/-- Witness for C2: the id `"zzz"` is absent from a concrete one-entry map. -/
theorem invalid_battery_id_rejected_witness :
    batteryRoute (α := Nat) (fun b => if b = "b1" then some "r1" else none)
        "zzz" 0 [] (fun _ => .failure none) =
      (⟨400, .err "Invalid battery ID"⟩, [], false) :=
  invalid_battery_id_rejected (fun b => if b = "b1" then some "r1" else none)
    "zzz" 0 [] (fun _ => .failure none) (by decide)

/-- Whether a response body is a JSON error object `{error: msg}`. -/
def RespBody.isErr {α : Type} : RespBody α → Bool
  | .err _ => true
  | .payload _ => false

/-- **C8 (counterexample).** The claim says an id mapped to a missing/empty
real id yields status 404; on the code it yields 400 ("Battery ID not
configured"): with the map `{b1 → ""}`, the response status is not 404. -/
theorem unconfigured_battery_id_cex :
    (batteryRoute (α := Nat) (fun b => if b = "b1" then some "" else none) "b1" 0 []
        (fun _ => .failure none)).1.status ≠ 404 := by
  decide

/-- **C8 (amended).** A `GET /api/battery/:batteryId` whose batteryId maps to
a missing or whitespace-only real id is answered with status **400** and a
JSON error body, without calling the supplier adapter. -/
theorem unconfigured_battery_id_400 {α : Type} (idMap : String → Option String)
    (batteryId : String) (now : Int) (cache : Cache α) (find : String → FindResult α)
    (r : String) (hmap : idMap batteryId = some r) (hempty : r = "" ∨ jsTrim r = "") :
    (batteryRoute idMap batteryId now cache find).1.status = 400
    ∧ RespBody.isErr (batteryRoute idMap batteryId now cache find).1.body = true
    ∧ (batteryRoute idMap batteryId now cache find).2.2 = false := by
  by_cases hb : batteryId = ""
  · simp [batteryRoute, validateBatteryId, hb, RespBody.isErr]
  · have hv : validateBatteryId (α := α) idMap batteryId =
        some ⟨400, .err "Battery ID not configured"⟩ := by
      rcases hempty with h | h <;> simp [validateBatteryId, hb, hmap, h]
    simp [batteryRoute, hv, RespBody.isErr]

/-- Witness for the amended C8: `{b1 → " "}` (whitespace-only real id). -/
theorem unconfigured_battery_id_400_witness :
    (batteryRoute (α := Nat) (fun b => if b = "b1" then some " " else none) "b1" 0 []
        (fun _ => .failure none)).1.status = 400
    ∧ RespBody.isErr (batteryRoute (α := Nat) (fun b => if b = "b1" then some " " else none)
        "b1" 0 [] (fun _ => .failure none)).1.body = true
    ∧ (batteryRoute (α := Nat) (fun b => if b = "b1" then some " " else none) "b1" 0 []
        (fun _ => .failure none)).2.2 = false :=
  unconfigured_battery_id_400 (fun b => if b = "b1" then some " " else none)
    "b1" 0 [] (fun _ => .failure none) " " (by decide) (Or.inr (by decide))

/-- **C9 (counterexample).** The claim says that on adapter failure "the cache
is left unchanged"; but a stale entry for the requested key is lazily evicted
by the cache lookup, so with a stale `battery_r1` entry and a failing adapter
the final cache differs from the initial one. -/
theorem battery_failure_evicts_stale_cex :
    (batteryRoute (α := Nat) (fun b => if b = "b1" then some "r1" else none) "b1" 20000
        [("battery_r1", ⟨5, 0⟩)] (fun _ => .failure none)).2.1 ≠
      [("battery_r1", ⟨5, 0⟩)] := by
  decide

/-- **C9 (amended).** For every validated `GET /api/battery/:batteryId`: a
fresh cache entry is returned without calling the adapter; otherwise the
adapter is called and exactly on success the result is stored in the cache
and returned; on adapter failure the response is 404 with a JSON error body,
on a thrown exception it is 500, and in both failure cases the handler writes
nothing to the cache — the final cache is the cache as the lookup left it
(which may have lazily evicted a stale entry for the key). -/
theorem battery_route_spec {α : Type} (idMap : String → Option String)
    (batteryId : String) (now : Int) (cache : Cache α) (find : String → FindResult α)
    (hv : validateBatteryId (α := α) idMap batteryId = none) :
    (∀ d c1, getCachedData cache ("battery_" ++ (idMap batteryId).getD "") now = (some d, c1) →
      batteryRoute idMap batteryId now cache find = (⟨200, .payload d⟩, c1, false))
    ∧ (∀ c1, getCachedData cache ("battery_" ++ (idMap batteryId).getD "") now = (none, c1) →
      (∀ d, find ((idMap batteryId).getD "") = .success d →
        batteryRoute idMap batteryId now cache find =
          (⟨200, .payload d⟩, cacheSet c1 ("battery_" ++ (idMap batteryId).getD "") d now, true))
      ∧ (∀ e, find ((idMap batteryId).getD "") = .failure e →
        batteryRoute idMap batteryId now cache find =
          (⟨404, .err (e.getD "Battery not found")⟩, c1, true))
      ∧ (find ((idMap batteryId).getD "") = .throws →
        batteryRoute idMap batteryId now cache find =
          (⟨500, .err "Internal server error"⟩, c1, true))) := by
  refine ⟨?_, ?_⟩
  · intro d c1 hget
    simp [batteryRoute, hv, hget]
  · intro c1 hget
    refine ⟨?_, ?_, ?_⟩
    · intro d hfind
      simp [batteryRoute, hv, hget, hfind]
    · intro e hfind
      simp [batteryRoute, hv, hget, hfind]
    · intro hfind
      simp [batteryRoute, hv, hget, hfind]

/-- Witness for the amended C9: with map `{b1 → r1}`, a fresh entry is served
from the cache without an adapter call, and on an empty cache a failing
adapter yields 404 with the default message and no cache write. -/
theorem battery_route_spec_witness :
    batteryRoute (α := Nat) (fun b => if b = "b1" then some "r1" else none) "b1" 100
        [("battery_r1", ⟨5, 0⟩)] (fun _ => .failure none) =
      (⟨200, .payload 5⟩, [("battery_r1", ⟨5, 0⟩)], false)
    ∧ batteryRoute (α := Nat) (fun b => if b = "b1" then some "r1" else none) "b1" 100
        [] (fun _ => .failure none) =
      (⟨404, .err "Battery not found"⟩, [], true) := by
  constructor
  · exact (battery_route_spec (fun b => if b = "b1" then some "r1" else none) "b1" 100
      [("battery_r1", ⟨5, 0⟩)] (fun _ => .failure none) (by decide)).1 5
      [("battery_r1", ⟨5, 0⟩)] (by decide)
  · exact ((battery_route_spec (fun b => if b = "b1" then some "r1" else none) "b1" 100
      [] (fun _ => .failure none) (by decide)).2 [] (by decide)).2.1 none rfl

/-! ## Station model and merge (`server.js` lines 137–151 and 450–463)

```js
const stations = stationsData.map(stationData => {
    const stationInfo = stationInfoMap[stationData.id];
    return {
        id: stationData.id,
        name: stationInfo?.name || `Station ${stationData.id}`,
        address: stationInfo?.address || '',
        coordinates: stationInfo?.coordinates || [0, 0],
        hours: stationInfo?.hours || null,
        isOpen: stationInfo?.hours ? locationManager.isOpen(stationData.id) : true,
        available: stationData.available || 0,
        occupied: stationData.occupied || 0,
        error: stationData.error || false
    };
});
```
The identical mapping appears in the `/api/stations` handler and in the
background-poll callback; `buildStations` below is that shared code.
Coordinates are opaque pass-through values here (no arithmetic is done on
them), embedded as integer pairs.
-/

/-- Live supplier data for one station, fields possibly absent. -/
structure StationData where
  id : String
  available : Option Int
  occupied : Option Int
  error : Option Bool
deriving DecidableEq, Repr

/-- Static location metadata for one station, fields possibly absent. -/
structure StationInfo where
  name : Option String
  address : Option String
  coordinates : Option (Int × Int)
  hours : Option String
deriving DecidableEq, Repr

/-- The merged station record served by `GET /api/stations`. -/
structure Station where
  id : String
  name : String
  address : String
  coordinates : Int × Int
  hours : Option String
  isOpen : Bool
  available : Int
  occupied : Int
  error : Bool
deriving DecidableEq, Repr

/-- `locationManager.isOpen` (`locations.js`): the external API has no hours,
so it always returns `true`. -/
def locationManager.isOpen (_id : String) : Bool := true

/-- Merge one station's supplier data with its (possibly absent) static
metadata. -/
def mergeStation (stationInfo : Option StationInfo) (stationData : StationData) : Station :=
  { id := stationData.id
    name := jsOrStr (stationInfo.bind (·.name)) ("Station " ++ stationData.id)
    address := jsOrStr (stationInfo.bind (·.address)) ""
    coordinates := (stationInfo.bind (·.coordinates)).getD (0, 0)
    hours := match stationInfo.bind (·.hours) with
      | some s => if s = "" then none else some s
      | none => none
    isOpen := if jsTruthyStr (stationInfo.bind (·.hours)) then
        locationManager.isOpen stationData.id
      else true
    available := (stationData.available).getD 0
    occupied := (stationData.occupied).getD 0
    error := (stationData.error).getD false }

/-- The merge loop over all fetched stations (`stationInfoMap` is the
association list of static metadata by id). -/
def buildStations (infos : List (String × StationInfo)) (data : List StationData) :
    List Station :=
  data.map (fun stationData => mergeStation (alookup infos stationData.id) stationData)

/-- `GET /api/stations` (`server.js` lines 114–164): serve the cached list if
fresh, otherwise fetch (`fetched` is the combined outcome of the
`locationManager.getAll` and `supplierApi.fetchMultipleStations` calls),
merge, cache and serve; a thrown error yields 500. -/
def stationsRoute (cache : Cache (List Station)) (now : Int)
    (fetched : Except String (List (String × StationInfo) × List StationData)) :
    Response (List Station) × Cache (List Station) :=
  match getCachedData cache "stations" now with
  | (some d, c1) => (⟨200, .payload d⟩, c1)
  | (none, c1) =>
    match fetched with
    | .error _ => (⟨500, .err "Failed to fetch station data"⟩, c1)
    | .ok (infos, data) =>
      let stations := buildStations infos data
      (⟨200, .payload stations⟩, cacheSet c1 "stations" stations now)

/-- The station-poll callback (`server.js` lines 436–473): a poll error is
only logged; a failure of the inner `locationManager.getAll` is caught and
logged; on success the `stations` cache entry is refreshed with the merged
list. -/
def stationPollCallback (pollError : Option String)
    (fetchedInfos : Except String (List (String × StationInfo)))
    (data : List StationData) (now : Int) (cache : Cache (List Station)) :
    Cache (List Station) :=
  match pollError with
  | some _ => cache
  | none =>
    match fetchedInfos with
    | .error _ => cache
    | .ok infos => cacheSet cache "stations" (buildStations infos data) now

/-- **C3.** A station id with no static metadata record merges to the
defaults `name = "Station " ++ id`, `address = ""`, `coordinates = (0,0)`,
`isOpen = true`; for every station `isOpen` is the code's hours-conditional
(`locationManager.isOpen` when hours are present, `true` otherwise); and both
`GET /api/stations` on a cache miss and the background poll callback produce
and cache exactly `buildStations`, the list of such merged stations. -/
theorem station_merge_defaults (infos : List (String × StationInfo))
    (stationData : StationData) (data : List StationData) (now : Int)
    (cache : Cache (List Station)) (c1 : Cache (List Station))
    (hmiss : alookup infos stationData.id = none)
    (hcachemiss : getCachedData cache "stations" now = (none, c1)) :
    (mergeStation (alookup infos stationData.id) stationData).name =
        "Station " ++ stationData.id
    ∧ (mergeStation (alookup infos stationData.id) stationData).address = ""
    ∧ (mergeStation (alookup infos stationData.id) stationData).coordinates = (0, 0)
    ∧ (mergeStation (alookup infos stationData.id) stationData).isOpen = true
    ∧ (∀ stationInfo : Option StationInfo,
        (mergeStation stationInfo stationData).isOpen =
          if jsTruthyStr (stationInfo.bind (·.hours)) then
            locationManager.isOpen stationData.id
          else true)
    ∧ buildStations infos data =
        data.map (fun sd => mergeStation (alookup infos sd.id) sd)
    ∧ stationsRoute cache now (.ok (infos, data)) =
        (⟨200, .payload (buildStations infos data)⟩,
          cacheSet c1 "stations" (buildStations infos data) now)
    ∧ stationPollCallback none (.ok infos) data now cache =
        cacheSet cache "stations" (buildStations infos data) now := by
  refine ⟨?_, ?_, ?_, ?_, ?_, ?_, ?_, ?_⟩
  · simp [mergeStation, hmiss, jsOrStr]
  · simp [mergeStation, hmiss, jsOrStr]
  · simp [mergeStation, hmiss]
  · simp [mergeStation, hmiss, jsTruthyStr]
  · intro stationInfo
    simp [mergeStation]
  · rfl
  · simp [stationsRoute, hcachemiss]
  · rfl

/-- Witness for C3: a station absent from a one-entry metadata list, with an
empty stations cache. -/
theorem station_merge_defaults_witness :
    (mergeStation (alookup [("s1", (⟨some "Depot", some "1 Main St", some (2, 3), none⟩ :
        StationInfo))] "s2") ⟨"s2", some 4, some 2, none⟩).name = "Station s2"
    ∧ (mergeStation (alookup [("s1", (⟨some "Depot", some "1 Main St", some (2, 3), none⟩ :
        StationInfo))] "s2") ⟨"s2", some 4, some 2, none⟩).isOpen = true := by
  have h := station_merge_defaults
    [("s1", ⟨some "Depot", some "1 Main St", some (2, 3), none⟩)]
    ⟨"s2", some 4, some 2, none⟩ [] 0 [] [] (by decide) (by decide)
  exact ⟨h.1, h.2.2.2.1⟩

/-! ## Supplier adapter routing

Modelled from the spec: `supplierApi.js` is not among the available sources
(only its call sites in `server.js` are). Spec §4.1: "Given a station id,
determines which of two supplier APIs owns it (by id pattern or registry) …
For battery lookup, tries the owning supplier and reports not-found if absent
— never silently substitutes data from the wrong supplier." The two backends
are ChargeNow and Energo (`server.js` comments). The ownership rule is an
abstract parameter `owner`; each supplier's data is a partial map.
-/

/-- The two supplier backends. -/
inductive Supplier where
  | chargeNow
  | energo
deriving DecidableEq, Repr

/-- Modelled from the spec: `supplierApi.findBatteryById` — query the owning
supplier only, and report not-found when the battery is absent there. -/
def findBatteryById {α : Type} (owner : String → Supplier)
    (chargeNowBatteries energoBatteries : String → Option α) (id : String) :
    FindResult α :=
  match owner id with
  | .chargeNow =>
    match chargeNowBatteries id with
    | some d => .success d
    | none => .failure (some "Battery not found")
  | .energo =>
    match energoBatteries id with
    | some d => .success d
    | none => .failure (some "Battery not found")

/-- Modelled from the spec: station fetch routed to the owning supplier. -/
def fetchStationRouted (owner : String → Supplier)
    (chargeNowStations energoStations : String → Option StationData) (id : String) :
    Option StationData :=
  match owner id with
  | .chargeNow => chargeNowStations id
  | .energo => energoStations id

/-- **C4.** Every station id routes to exactly one of the two suppliers; a
battery lookup queries only the owning supplier — its outcome is independent
of the other supplier's data — and reports not-found when the battery is
absent at the owner, never returning the other supplier's data. -/
theorem supplier_routing_exclusive {α : Type} (owner : String → Supplier)
    (cnB enB cnB' enB' : String → Option α)
    (cnS enS : String → Option StationData) (id : String) :
    ((owner id = .chargeNow ∨ owner id = .energo)
      ∧ ¬(owner id = .chargeNow ∧ owner id = .energo))
    ∧ (owner id = .chargeNow →
        findBatteryById owner cnB enB id = findBatteryById owner cnB enB' id
        ∧ (cnB id = none →
            findBatteryById owner cnB enB id = .failure (some "Battery not found"))
        ∧ (∀ d, findBatteryById owner cnB enB id = .success d → cnB id = some d)
        ∧ fetchStationRouted owner cnS enS id = cnS id)
    ∧ (owner id = .energo →
        findBatteryById owner cnB enB id = findBatteryById owner cnB' enB id
        ∧ (enB id = none →
            findBatteryById owner cnB enB id = .failure (some "Battery not found"))
        ∧ (∀ d, findBatteryById owner cnB enB id = .success d → enB id = some d)
        ∧ fetchStationRouted owner cnS enS id = enS id) := by
  refine ⟨⟨?_, ?_⟩, ?_, ?_⟩
  · cases h : owner id
    · exact Or.inl rfl
    · exact Or.inr rfl
  · rintro ⟨h1, h2⟩
    rw [h1] at h2
    exact Supplier.noConfusion h2
  · intro h
    refine ⟨?_, ?_, ?_, ?_⟩
    · simp [findBatteryById, h]
    · intro habs
      simp [findBatteryById, h, habs]
    · intro d hd
      simp only [findBatteryById, h] at hd
      cases hcn : cnB id with
      | none => simp [hcn] at hd
      | some d' => simpa [hcn] using hd
    · simp [fetchStationRouted, h]
  · intro h
    refine ⟨?_, ?_, ?_, ?_⟩
    · simp [findBatteryById, h]
    · intro habs
      simp [findBatteryById, h, habs]
    · intro d hd
      simp only [findBatteryById, h] at hd
      cases hen : enB id with
      | none => simp [hen] at hd
      | some d' => simpa [hen] using hd
    · simp [fetchStationRouted, h]

/-- Witness for C4: with everything owned by ChargeNow and battery `b`
missing there (though present at Energo), the lookup reports not-found. -/
theorem supplier_routing_exclusive_witness :
    findBatteryById (fun _ => Supplier.chargeNow) (fun _ : String => (none : Option Nat))
        (fun _ => some 9) "b" = .failure (some "Battery not found") :=
  ((supplier_routing_exclusive (fun _ => Supplier.chargeNow)
      (fun _ : String => (none : Option Nat)) (fun _ => some 9)
      (fun _ => none) (fun _ => none) (fun _ => none) (fun _ => none) "b").2.1
    rfl).2.1 rfl

/-! ## Background polling loops

Modelled from the spec: the interval machinery (`supplierApi.pollStationData`,
`supplierApi.pollBatteryOrders`) is not among the available sources; only the
per-tick callbacks in `server.js` are. Spec §4.3: errors are logged and "the
loop continues on the existing schedule (no backoff beyond the fixed
interval)"; §7: "Poller errors never crash the process; they are isolated per
tick and logged." A loop is a fixed interval plus the time of the next
scheduled tick; each tick consumes one fetch outcome, logs the error if any,
and schedules the next tick one interval later either way.
-/

/-- State of one polling loop. -/
structure PollLoop where
  interval : Nat
  nextTick : Nat
  active : Bool
deriving DecidableEq, Repr

/-- Modelled from the spec: one tick of a polling loop. The fetch outcome is
`Except`; an error is returned to the log and the next tick is scheduled at
the same fixed interval. -/
def pollTick (st : PollLoop) (outcome : Except String Unit) : PollLoop × Option String :=
  match outcome with
  | .error e => ({ st with nextTick := st.nextTick + st.interval }, some e)
  | .ok _ => ({ st with nextTick := st.nextTick + st.interval }, none)

/-- Run a polling loop through a list of tick outcomes, collecting the log. -/
def runTicks (st : PollLoop) : List (Except String Unit) → PollLoop × List (Option String)
  | [] => (st, [])
  | o :: os =>
    let t := pollTick st o
    let r := runTicks t.1 os
    (r.1, t.2 :: r.2)

/-- **C5.** Across any sequence of tick outcomes (failures included) the loop
stays active on its fixed interval — after `n` ticks the next tick is
scheduled exactly `n` intervals later and every tick was processed — and the
`server.js` callbacks isolate failures: a poll error, or an exception in the
callback's own fetch, leaves the station cache untouched (the error being
logged), so a failed tick neither stops the loop nor crashes the process. -/
theorem poll_failure_isolated (st : PollLoop) (outcomes : List (Except String Unit)) :
    (runTicks st outcomes).1.active = st.active
    ∧ (runTicks st outcomes).1.interval = st.interval
    ∧ (runTicks st outcomes).1.nextTick = st.nextTick + outcomes.length * st.interval
    ∧ (runTicks st outcomes).2.length = outcomes.length
    ∧ (∀ e fetchedInfos data now cache,
        stationPollCallback (some e) fetchedInfos data now cache = cache)
    ∧ (∀ e data now cache,
        stationPollCallback none (.error e) data now cache = cache) := by
  refine ⟨?_, ?_, ?_, ?_, ?_, ?_⟩
  · induction outcomes generalizing st with
    | nil => rfl
    | cons o os ih => cases o <;> simpa [runTicks, pollTick] using ih _
  · induction outcomes generalizing st with
    | nil => rfl
    | cons o os ih => cases o <;> simpa [runTicks, pollTick] using ih _
  · induction outcomes generalizing st with
    | nil => simp [runTicks]
    | cons o os ih =>
      cases o <;> simp [runTicks, pollTick, ih] <;> ring
  · induction outcomes generalizing st with
    | nil => rfl
    | cons o os ih => cases o <;> simpa [runTicks, pollTick] using ih _
  · intro e fetchedInfos data now cache
    rfl
  · intro e data now cache
    rfl

/-! ## Startup health check (`server.js` lines 497–505)

```js
supplierApi.checkApiHealth().then(isHealthy => {
    if (isHealthy) {
        startBackgroundPolling();
    } else {
        console.warn('ChargeNow API health check failed, will retry polling in 30 seconds');
        setTimeout(startBackgroundPolling, 30000);
    }
});
```
On an unhealthy result the code retries the *polling start* after 30 s — it
does not perform a second health check.
-/

/-- Observable startup events. -/
inductive StartupEvent where
  | healthCheck (result : Bool)
  | waitMs (ms : Nat)
  | startLoops
deriving DecidableEq, Repr

/-- The `.then` continuation of `checkApiHealth()`. -/
def onHealthResult (isHealthy : Bool) : List StartupEvent :=
  if isHealthy then [.startLoops] else [.waitMs 30000, .startLoops]

/-- The startup sequence: one health check, then its continuation. -/
def startupTrace (isHealthy : Bool) : List StartupEvent :=
  .healthCheck isHealthy :: onHealthResult isHealthy

/-- Number of health checks performed in a startup trace. -/
def countHealthChecks (tr : List StartupEvent) : Nat :=
  (tr.filter fun e => match e with | .healthCheck _ => true | _ => false).length

/-- **C6 (counterexample).** The claim says that on an unhealthy result the
health check "is retried once after 30 seconds before the loops are started",
i.e. the unhealthy startup trace would contain two health checks; in the code
it contains exactly one — `setTimeout(startBackgroundPolling, 30000)` retries
the polling start, not the health check. -/
theorem startup_single_health_check_cex :
    countHealthChecks (startupTrace false) ≠ 2 := by
  decide

/-- **C6 (amended).** At startup exactly one health check is performed in
either case; if it reports healthy the polling loops start immediately; if it
reports unhealthy, the loop start is delayed 30 seconds and then performed
without a second health check. -/
theorem startup_health_check_spec :
    (∀ isHealthy, countHealthChecks (startupTrace isHealthy) = 1)
    ∧ startupTrace true = [.healthCheck true, .startLoops]
    ∧ startupTrace false = [.healthCheck false, .waitMs 30000, .startLoops] := by
  refine ⟨?_, rfl, rfl⟩
  intro isHealthy
  cases isHealthy <;> rfl

/-! ## Shutdown handlers (`server.js` lines 394–414 and 509–510)

```js
process.on('SIGTERM', () => {
    if (stationPollingStop) stationPollingStop();
    if (batteryPollingStop) batteryPollingStop();
    qrStats.saveStats();
    process.exit(0);
});
```
(the `SIGINT` handler is identical). The keep-alive stop handle
`energoTokenKeepAliveStop = supplierApi.startEnergoTokenKeepAlive(...)` is
assigned at startup but never invoked by either handler.
-/

/-- Observable shutdown steps. -/
inductive ShutdownStep where
  | stopStationPolling
  | stopBatteryPolling
  | stopTokenKeepAlive
  | saveStats
  | exitProcess
deriving DecidableEq, Repr

/-- The SIGTERM/SIGINT handler, given whether each polling stop handle has
been assigned. -/
def shutdownTrace (stationStopSet batteryStopSet : Bool) : List ShutdownStep :=
  (if stationStopSet then [.stopStationPolling] else [])
    ++ (if batteryStopSet then [.stopBatteryPolling] else [])
    ++ [.saveStats, .exitProcess]

/-- **C7 (counterexample).** The claim says all three loops — including the
token keep-alive — are cancelled on a shutdown signal; the handler (with both
polling stop handles assigned) never invokes the keep-alive stop handle. -/
theorem shutdown_keepalive_not_stopped_cex :
    ShutdownStep.stopTokenKeepAlive ∉ shutdownTrace true true := by
  decide

/-- **C7 (amended).** On SIGTERM/SIGINT the handler stops the station poll
and the battery-order poll (exactly when their stop handles are assigned) and
persists the buffered analytics synchronously, with `process.exit` as the
last step; the token keep-alive loop's stop handle is never invoked. -/
theorem shutdown_spec (stationStopSet batteryStopSet : Bool) :
    ShutdownStep.stopTokenKeepAlive ∉ shutdownTrace stationStopSet batteryStopSet
    ∧ ShutdownStep.saveStats ∈ shutdownTrace stationStopSet batteryStopSet
    ∧ (shutdownTrace stationStopSet batteryStopSet).getLast? = some .exitProcess
    ∧ (ShutdownStep.stopStationPolling ∈ shutdownTrace stationStopSet batteryStopSet
        ↔ stationStopSet = true)
    ∧ (ShutdownStep.stopBatteryPolling ∈ shutdownTrace stationStopSet batteryStopSet
        ↔ batteryStopSet = true) := by
  cases stationStopSet <;> cases batteryStopSet <;> decide

/-! ## Duration parsing and formatting (`scan_service.js` lines 7–25)

```js
function parseDurationToSeconds(durationString) {
    const parts = durationString.split(':');
    if (parts.length !== 3) return 0;
    const hours = parseInt(parts[0], 10) || 0;
    const minutes = parseInt(parts[1], 10) || 0;
    const seconds = parseInt(parts[2], 10) || 0;
    return hours * 3600 + minutes * 60 + seconds;
}

function formatSecondsToDuration(totalSeconds) {
    const hours = Math.floor(totalSeconds / 3600);
    const minutes = Math.floor((totalSeconds % 3600) / 60);
    const seconds = totalSeconds % 60;
    return `${String(hours).padStart(2, '0')}:${String(minutes).padStart(2, '0')}:${String(seconds).padStart(2, '0')}`;
}
```
`split`, `parseInt(·, 10)`, `String(·)` and `padStart(2, '0')` are embedded
below; `parseInt` yields an `Option Int` (`none` for NaN, so `x || 0` is
`getD 0`, which also fixes the falsy `0` to itself).
-/

/-- JS `String.prototype.split` with a single-character separator:
accumulates the current field (reversed) and emits it at each separator. -/
def splitCharAux (sep : Char) : List Char → List Char → List (List Char)
  | [], acc => [acc.reverse]
  | c :: cs, acc =>
    if c = sep then acc.reverse :: splitCharAux sep cs []
    else splitCharAux sep cs (c :: acc)

/-- `s.split(sep)` for a one-character separator. -/
def jsSplit (sep : Char) (s : String) : List String :=
  (splitCharAux sep s.toList []).map String.mk

/-- The digit-consuming core of `parseInt(s, 10)`: value of the longest
leading run of decimal digits, `none` (NaN) if there is none. -/
def parseDigits (cs : List Char) : Option Nat :=
  let ds := cs.takeWhile isAsciiDigit
  if ds.isEmpty then none
  else some (ds.foldl (fun acc c => acc * 10 + digitVal c) 0)

/-- JS `parseInt(s, 10)`: skip leading whitespace, optional sign, then the
longest run of decimal digits; `none` is NaN. -/
def parseIntJs (s : String) : Option Int :=
  match s.toList.dropWhile isJsWhitespace with
  | [] => none
  | c :: rest =>
    if c = '-' then (parseDigits rest).map (fun n => -(n : Int))
    else if c = '+' then (parseDigits rest).map (fun n => (n : Int))
    else (parseDigits (c :: rest)).map (fun n => (n : Int))

/-- JS `String(n)` for a non-negative integer: its decimal digits. -/
def jsStringOfNat (n : Nat) : List Char :=
  if n = 0 then ['0'] else ((Nat.digits 10 n).map Nat.digitChar).reverse

/-- JS `s.padStart(2, '0')`. -/
def padStart2 (l : List Char) : List Char :=
  List.replicate (2 - l.length) '0' ++ l

/-- `parseDurationToSeconds`. -/
def parseDurationToSeconds (s : String) : Int :=
  let parts := jsSplit ':' s
  if parts.length ≠ 3 then 0
  else
    let hours := (parseIntJs (parts.getD 0 "")).getD 0
    let minutes := (parseIntJs (parts.getD 1 "")).getD 0
    let seconds := (parseIntJs (parts.getD 2 "")).getD 0
    hours * 3600 + minutes * 60 + seconds

/-- `formatSecondsToDuration` on a natural number of seconds. -/
def formatSecondsToDuration (totalSeconds : Nat) : String :=
  String.mk (padStart2 (jsStringOfNat (totalSeconds / 3600))
    ++ (':' :: (padStart2 (jsStringOfNat (totalSeconds % 3600 / 60))
    ++ (':' :: padStart2 (jsStringOfNat (totalSeconds % 60))))))

/-! ### Round-trip lemmas -/

theorem digit_char_facts (c : Char) (h : isAsciiDigit c = true) :
    isJsWhitespace c = false ∧ c ≠ '-' ∧ c ≠ '+' ∧ c ≠ ':' := by
  simp only [isAsciiDigit, Bool.and_eq_true, decide_eq_true_eq] at h
  obtain ⟨h1, h2⟩ := h
  have hsSp : c ≠ ' ' := fun he => by rw [he] at h1; exact absurd h1 (by decide)
  have hsTab : c ≠ '\t' := fun he => by rw [he] at h1; exact absurd h1 (by decide)
  have hsNl : c ≠ '\n' := fun he => by rw [he] at h1; exact absurd h1 (by decide)
  have hsCr : c ≠ '\r' := fun he => by rw [he] at h1; exact absurd h1 (by decide)
  have hsMinus : c ≠ '-' := fun he => by rw [he] at h1; exact absurd h1 (by decide)
  have hsPlus : c ≠ '+' := fun he => by rw [he] at h1; exact absurd h1 (by decide)
  have hsColon : c ≠ ':' := fun he => by rw [he] at h2; exact absurd h2 (by decide)
  refine ⟨?_, hsMinus, hsPlus, hsColon⟩
  simp [isJsWhitespace, hsSp, hsTab, hsNl, hsCr]

theorem isAsciiDigit_digitChar (d : Nat) (h : d < 10) :
    isAsciiDigit (Nat.digitChar d) = true := by
  interval_cases d <;> decide

theorem digitVal_digitChar (d : Nat) (h : d < 10) :
    digitVal (Nat.digitChar d) = d := by
  interval_cases d <;> decide

theorem jsStringOfNat_all_digits (n : Nat) :
    ∀ c ∈ jsStringOfNat n, isAsciiDigit c = true := by
  intro c hc
  unfold jsStringOfNat at hc
  split at hc
  · simp only [List.mem_singleton] at hc
    subst hc
    decide
  · simp only [List.mem_reverse, List.mem_map] at hc
    obtain ⟨d, hd, rfl⟩ := hc
    exact isAsciiDigit_digitChar d (Nat.digits_lt_base (by norm_num) hd)

theorem padStart2_all_digits (l : List Char) (h : ∀ c ∈ l, isAsciiDigit c = true) :
    ∀ c ∈ padStart2 l, isAsciiDigit c = true := by
  intro c hc
  simp only [padStart2, List.mem_append, List.mem_replicate] at hc
  rcases hc with ⟨-, rfl⟩ | hc
  · decide
  · exact h c hc

theorem jsStringOfNat_ne_nil (n : Nat) : jsStringOfNat n ≠ [] := by
  unfold jsStringOfNat
  split
  · simp
  · simp [Nat.digits_ne_nil_iff_ne_zero, *]

theorem padStart2_ne_nil (l : List Char) (h : l ≠ []) : padStart2 l ≠ [] := by
  simp [padStart2, h]

theorem foldl_digitVal (l : List Char) (a : Nat) :
    l.foldl (fun acc c => acc * 10 + digitVal c) a
      = a * 10 ^ l.length + Nat.ofDigits 10 ((l.map digitVal).reverse) := by
  induction l generalizing a with
  | nil => simp [Nat.ofDigits_nil]
  | cons c l ih =>
    simp only [List.foldl_cons, List.map_cons, List.reverse_cons, List.length_cons]
    rw [ih, Nat.ofDigits_append]
    simp only [List.length_reverse, List.length_map, Nat.ofDigits_cons, Nat.ofDigits_nil]
    ring

theorem foldl_replicate_zero (j : Nat) (l : List Char) :
    (List.replicate j '0' ++ l).foldl (fun acc c => acc * 10 + digitVal c) 0
      = l.foldl (fun acc c => acc * 10 + digitVal c) 0 := by
  induction j with
  | zero => rfl
  | succ j ih =>
    have h0 : (0 : Nat) * 10 + digitVal '0' = 0 := rfl
    simpa [List.replicate_succ, h0] using ih

theorem takeWhile_digits (l : List Char) (h : ∀ c ∈ l, isAsciiDigit c = true) :
    l.takeWhile isAsciiDigit = l :=
  List.takeWhile_eq_self_iff.mpr h

theorem parseDigits_pad (m : Nat) :
    parseDigits (padStart2 (jsStringOfNat m)) = some m := by
  have hall := padStart2_all_digits (jsStringOfNat m) (jsStringOfNat_all_digits m)
  have hne := padStart2_ne_nil (jsStringOfNat m) (jsStringOfNat_ne_nil m)
  unfold parseDigits
  rw [takeWhile_digits _ hall]
  rw [if_neg (by simpa using hne)]
  congr 1
  unfold padStart2
  rw [foldl_replicate_zero]
  unfold jsStringOfNat
  split
  · subst m
    rfl
  · rw [foldl_digitVal]
    have hmap : ((Nat.digits 10 m).map Nat.digitChar).map digitVal = Nat.digits 10 m := by
      rw [List.map_map]
      have : ∀ d ∈ Nat.digits 10 m, (digitVal ∘ Nat.digitChar) d = id d := by
        intro d hd
        exact digitVal_digitChar d (Nat.digits_lt_base (by norm_num) hd)
      rw [List.map_congr_left this, List.map_id]
    rw [List.map_reverse, hmap, List.reverse_reverse]
    simp [Nat.ofDigits_digits]

theorem parseIntJs_pad (m : Nat) :
    parseIntJs (String.mk (padStart2 (jsStringOfNat m))) = some (m : Int) := by
  have hall := padStart2_all_digits (jsStringOfNat m) (jsStringOfNat_all_digits m)
  have hne := padStart2_ne_nil (jsStringOfNat m) (jsStringOfNat_ne_nil m)
  obtain ⟨c, rest, hl⟩ : ∃ c rest, padStart2 (jsStringOfNat m) = c :: rest := by
    cases h : padStart2 (jsStringOfNat m) with
    | nil => exact absurd h hne
    | cons c rest => exact ⟨c, rest, rfl⟩
  have hc : isAsciiDigit c = true := hall c (by rw [hl]; exact List.mem_cons_self c rest)
  obtain ⟨hws, hminus, hplus, -⟩ := digit_char_facts c hc
  have hdrop : (String.mk (padStart2 (jsStringOfNat m))).toList.dropWhile isJsWhitespace
      = c :: rest := by
    show (padStart2 (jsStringOfNat m)).dropWhile isJsWhitespace = c :: rest
    rw [hl, List.dropWhile_cons, hws]
    simp
  unfold parseIntJs
  rw [hdrop]
  simp only [if_neg hminus, if_neg hplus]
  rw [← hl, parseDigits_pad]
  rfl

theorem splitCharAux_no_sep (sep : Char) (l : List Char) (h : ∀ c ∈ l, c ≠ sep) :
    ∀ acc, splitCharAux sep l acc = [acc.reverse ++ l] := by
  induction l with
  | nil => intro acc; simp [splitCharAux]
  | cons c cs ih =>
    intro acc
    have hc : c ≠ sep := h c (List.mem_cons_self c cs)
    rw [splitCharAux, if_neg hc, ih (fun x hx => h x (List.mem_cons_of_mem c hx))]
    simp

theorem splitCharAux_sep (sep : Char) (l1 l2 : List Char) (h : ∀ c ∈ l1, c ≠ sep) :
    ∀ acc, splitCharAux sep (l1 ++ sep :: l2) acc
      = (acc.reverse ++ l1) :: splitCharAux sep l2 [] := by
  induction l1 with
  | nil =>
    intro acc
    simp [splitCharAux]
  | cons c cs ih =>
    intro acc
    have hc : c ≠ sep := h c (List.mem_cons_self c cs)
    rw [List.cons_append, splitCharAux, if_neg hc,
      ih (fun x hx => h x (List.mem_cons_of_mem c hx))]
    simp

theorem parse_format_concat (a b c : Nat) :
    parseDurationToSeconds (String.mk (padStart2 (jsStringOfNat a)
      ++ (':' :: (padStart2 (jsStringOfNat b) ++ (':' :: padStart2 (jsStringOfNat c))))))
      = (a : Int) * 3600 + (b : Int) * 60 + (c : Int) := by
  have hno : ∀ x : Nat, ∀ ch ∈ padStart2 (jsStringOfNat x), ch ≠ ':' := fun x ch hch =>
    (digit_char_facts ch
      (padStart2_all_digits (jsStringOfNat x) (jsStringOfNat_all_digits x) ch hch)).2.2.2
  have hsplit : splitCharAux ':' (String.mk (padStart2 (jsStringOfNat a)
      ++ (':' :: (padStart2 (jsStringOfNat b)
        ++ (':' :: padStart2 (jsStringOfNat c)))))).toList []
      = [padStart2 (jsStringOfNat a), padStart2 (jsStringOfNat b),
          padStart2 (jsStringOfNat c)] := by
    show splitCharAux ':' (padStart2 (jsStringOfNat a)
      ++ (':' :: (padStart2 (jsStringOfNat b) ++ (':' :: padStart2 (jsStringOfNat c))))) []
      = _
    rw [splitCharAux_sep ':' _ _ (hno a), splitCharAux_sep ':' _ _ (hno b),
      splitCharAux_no_sep ':' _ (hno c)]
    simp
  simp only [parseDurationToSeconds, jsSplit]
  rw [hsplit]
  simp [parseIntJs_pad]

/-- **C10.** For every natural number `n` of seconds,
`parseDurationToSeconds (formatSecondsToDuration n) = n`; and every string
that does not split on `':'` into exactly three parts parses to 0. -/
theorem duration_roundtrip_spec :
    (∀ n : Nat, parseDurationToSeconds (formatSecondsToDuration n) = (n : Int))
    ∧ (∀ s : String, (jsSplit ':' s).length ≠ 3 → parseDurationToSeconds s = 0) := by
  constructor
  · intro n
    rw [show formatSecondsToDuration n = String.mk (padStart2 (jsStringOfNat (n / 3600))
      ++ (':' :: (padStart2 (jsStringOfNat (n % 3600 / 60))
        ++ (':' :: padStart2 (jsStringOfNat (n % 60)))))) from rfl]
    rw [parse_format_concat]
    omega
  · intro s h
    simp [parseDurationToSeconds, h]

/-- Witness for C10: the round trip at 3661 seconds ("01:01:01") and the
length-guard on the 2-part string "12:34". -/
theorem duration_roundtrip_spec_witness :
    parseDurationToSeconds (formatSecondsToDuration 3661) = (3661 : Int)
    ∧ parseDurationToSeconds "12:34" = 0 :=
  ⟨duration_roundtrip_spec.1 3661, duration_roundtrip_spec.2 "12:34" (by decide)⟩
